import Mathlib

/-!
Verification of the bmalloc allocation bridge (src/lib.rs).

The bridge translates a Rust allocation request, a `Layout` of size and
alignment, into calls on the external collector (bdwgc).  We embed the
bridge as state-passing functions over an abstract collector oracle.  The
collector is a structure of pure response functions; addresses are natural
numbers with 0 encoding the null pointer; the observable state carries the
byte memory, the live-block map and the trace of primitive calls issued so
far, so that call-count and no-op properties become statements about the
trace.  Writes performed inside the collector are outside the model; the
one memory write the bridge itself performs, the copy in the relocate path
of gc_realloc, is modelled exactly.
-/

namespace Bmalloc

/-- Fast-path alignment threshold, MIN_ALIGN in lib.rs. -/
def MIN_ALIGN : Nat := 8

/-- Byte width of usize on the only supported target, x86_64 with 64-bit
pointers, which build.rs enforces with a compile_error otherwise. -/
def USIZE_BYTES : Nat := 8

/-- A Rust core::alloc::Layout: requested size and alignment in bytes. -/
structure Layout where
  size : Nat
  align : Nat
deriving DecidableEq

/-- Address of Layout::dangling(): a non-null pointer whose address equals
the alignment of the layout. -/
def Layout.dangling (l : Layout) : Nat := l.align

/-- One invocation of a collector primitive, recorded in the call trace. -/
inductive PrimCall where
  | malloc : Nat → PrimCall
  | posixMemalign : Nat → Nat → PrimCall
  | realloc : Nat → Nat → PrimCall
  | free : Nat → PrimCall
deriving DecidableEq

/-- The collector as a deterministic oracle.  mallocImpl answers GC_malloc,
returning an address or 0 for null; memalignImpl answers GC_posix_memalign
with a status code and an out-pointer; reallocImpl answers GC_realloc;
capacity gives the usable size of the block at a given address. -/
structure Collector where
  mallocImpl : Nat → Nat
  memalignImpl : Nat → Nat → Int × Nat
  reallocImpl : Nat → Nat → Nat
  capacity : Nat → Nat

/-- Observable state threaded through the bridge: byte memory, the
live-block map, and the trace of collector primitives issued so far. -/
structure GcState where
  mem : Nat → Nat
  live : Nat → Bool
  trace : List PrimCall

/-- Mark the block at address p live. -/
def markLive (p : Nat) (live : Nat → Bool) : Nat → Bool :=
  fun a => if a = p then true else live a

/-- Mark the block at address p dead. -/
def markDead (p : Nat) (live : Nat → Bool) : Nat → Bool :=
  fun a => if a = p then false else live a

/-- Invoke GC_malloc: record the call, mark a non-null result live. -/
def callMalloc (C : Collector) (n : Nat) (s : GcState) : Nat × GcState :=
  (C.mallocImpl n,
    GcState.mk s.mem
      (if C.mallocImpl n = 0 then s.live else markLive (C.mallocImpl n) s.live)
      (s.trace ++ [PrimCall.malloc n]))

/-- Invoke GC_posix_memalign: record the call, mark the out-pointer live
when the status is zero and the out-pointer non-null. -/
def callMemalign (C : Collector) (a n : Nat) (s : GcState) : (Int × Nat) × GcState :=
  (C.memalignImpl a n,
    GcState.mk s.mem
      (if (C.memalignImpl a n).1 = 0 ∧ (C.memalignImpl a n).2 ≠ 0 then
        markLive (C.memalignImpl a n).2 s.live
      else s.live)
      (s.trace ++ [PrimCall.posixMemalign a n]))

/-- Invoke GC_realloc: record the call, mark a non-null result live. -/
def callRealloc (C : Collector) (p n : Nat) (s : GcState) : Nat × GcState :=
  (C.reallocImpl p n,
    GcState.mk s.mem
      (if C.reallocImpl p n = 0 then s.live else markLive (C.reallocImpl p n) s.live)
      (s.trace ++ [PrimCall.realloc p n]))

/-- Invoke GC_free: record the call, mark the block dead. -/
def callFree (C : Collector) (p : Nat) (s : GcState) : GcState :=
  GcState.mk s.mem (markDead p s.live) (s.trace ++ [PrimCall.free p])

/-- gc_malloc from lib.rs: when the alignment is at most MIN_ALIGN and at
most the size, issue GC_malloc with the size; otherwise issue
GC_posix_memalign with the alignment raised to at least the usize width,
returning null on a non-zero status and the out-pointer otherwise. -/
def gc_malloc (C : Collector) (layout : Layout) (s : GcState) : Nat × GcState :=
  if layout.align ≤ MIN_ALIGN ∧ layout.align ≤ layout.size then
    callMalloc C layout.size s
  else
    let r := callMemalign C (max layout.align USIZE_BYTES) layout.size s
    if r.1.1 ≠ 0 then (0, r.2) else (r.1.2, r.2)

/-- ptr::copy_nonoverlapping src dst n: the n bytes at dst become the n
bytes at src; all other addresses keep their contents. -/
def copyNonoverlapping (src dst n : Nat) (s : GcState) : GcState :=
  GcState.mk
    (fun a => if dst ≤ a ∧ a < dst + n then s.mem (src + (a - dst)) else s.mem a)
    s.live s.trace

/-- gc_free from lib.rs: forwards to GC_free, ignoring the layout. -/
def gc_free (C : Collector) (p : Nat) (layout : Layout) (s : GcState) : GcState :=
  callFree C p s

/-- gc_realloc from lib.rs: when the old alignment is at most MIN_ALIGN and
at most the new size, issue GC_realloc; otherwise allocate a fresh block at
the old alignment via gc_malloc, and on success copy min(old size, new
size) bytes into it and release the old block via gc_free. -/
def gc_realloc (C : Collector) (p : Nat) (old_layout : Layout) (new_size : Nat)
    (s : GcState) : Nat × GcState :=
  if old_layout.align ≤ MIN_ALIGN ∧ old_layout.align ≤ new_size then
    callRealloc C p new_size s
  else
    let r := gc_malloc C (Layout.mk new_size old_layout.align) s
    if r.1 ≠ 0 then
      (r.1, gc_free C p old_layout
        (copyNonoverlapping p r.1 (min old_layout.size new_size) r.2))
    else r

namespace GcAllocator

/-- GlobalAlloc::alloc for GcAllocator: delegates to gc_malloc. -/
def alloc (C : Collector) (layout : Layout) (s : GcState) : Nat × GcState :=
  gc_malloc C layout s

/-- GlobalAlloc::dealloc for GcAllocator: the forwarding call to gc_free is
commented out in the source, so the body is empty and the state is
returned unchanged. -/
def dealloc (C : Collector) (p : Nat) (layout : Layout) (s : GcState) : GcState :=
  s

/-- GlobalAlloc::realloc for GcAllocator: delegates to gc_realloc. -/
def realloc (C : Collector) (p : Nat) (layout : Layout) (new_size : Nat)
    (s : GcState) : Nat × GcState :=
  gc_realloc C p layout new_size s

/-- Allocator::allocate for GcAllocator: a zero-size request returns the
dangling pointer with length 0 without touching the collector; otherwise
gc_malloc is issued, a null result becomes the AllocError value none, and
a non-null result is paired with the requested size as the slice length. -/
def allocate (C : Collector) (layout : Layout) (s : GcState) :
    Option (Nat × Nat) × GcState :=
  if layout.size = 0 then (some (Layout.dangling layout, 0), s)
  else
    let r := gc_malloc C layout s
    if r.1 = 0 then (none, r.2) else (some (r.1, layout.size), r.2)

/-- Allocator::deallocate for GcAllocator: the body is empty, the state is
returned unchanged. -/
def deallocate (C : Collector) (p : Nat) (layout : Layout) (s : GcState) : GcState :=
  s

end GcAllocator

/-- The section-6 contracts of the collector used by the bridge: a non-null
GC_malloc result is aligned to the default guarantee MIN_ALIGN and holds at
least the requested bytes; when GC_posix_memalign is passed a power-of-two
alignment that is a multiple of the usize width and reports status zero,
its out-pointer is non-null, aligned to that alignment and holds at least
the requested bytes. -/
def Collector.Honest (C : Collector) : Prop :=
  (∀ n, C.mallocImpl n ≠ 0 →
    C.mallocImpl n % MIN_ALIGN = 0 ∧ n ≤ C.capacity (C.mallocImpl n)) ∧
  (∀ a n, (∃ k, a = 2 ^ k) → a % USIZE_BYTES = 0 → (C.memalignImpl a n).1 = 0 →
    (C.memalignImpl a n).2 ≠ 0 ∧ (C.memalignImpl a n).2 % a = 0 ∧
      n ≤ C.capacity (C.memalignImpl a n).2)

/-- A collector double that always fails: GC_malloc returns null and
GC_posix_memalign reports status 1. -/
def probeCollector : Collector :=
  Collector.mk (fun _ => 0) (fun _ _ => (1, 0)) (fun _ _ => 0) (fun _ => 0)

/-- A collector double that always succeeds with fixed addresses. -/
def okCollector : Collector :=
  Collector.mk (fun _ => 32) (fun _ _ => (0, 64)) (fun _ _ => 16) (fun _ => 4096)

/-- An honest collector double: GC_malloc answers 8 * (n + 1), memalign
answers a * (n + 1), and capacity reads the address itself. -/
def honestCollector : Collector :=
  Collector.mk (fun n => 8 * (n + 1)) (fun a n => (0, a * (n + 1)))
    (fun p _ => p) (fun p => p)

/-- An initial state: zeroed memory, nothing live, empty trace. -/
def initState : GcState :=
  GcState.mk (fun _ => 0) (fun _ => false) []

lemma honestCollector_honest : honestCollector.Honest := by
  constructor
  · intro n _
    constructor
    · simp [honestCollector, MIN_ALIGN, Nat.mul_mod_right]
    · simp [honestCollector]
      omega
  · intro a n hpow _ _
    obtain ⟨k, rfl⟩ := hpow
    have hpos : 0 < (2 : Nat) ^ k := Nat.pos_pow_of_pos k (by norm_num)
    refine ⟨?_, ?_, ?_⟩
    · simp [honestCollector]
    · simp [honestCollector, Nat.mul_mod_right]
    · simp [honestCollector]
      calc n ≤ n + 1 := Nat.le_succ n
        _ ≤ 2 ^ k * (n + 1) := Nat.le_mul_of_pos_left (n + 1) hpos

lemma pow_two_le_eight_dvd (k : Nat) (h : 2 ^ k ≤ 8) : (2 ^ k : Nat) ∣ 8 := by
  have hk : k ≤ 3 := by
    by_contra hk
    push_neg at hk
    have h4 : (2 : Nat) ^ 4 ≤ 2 ^ k := Nat.pow_le_pow_right (by norm_num) hk
    norm_num at h4
    omega
  have : (2 : Nat) ^ k ∣ 2 ^ 3 := pow_dvd_pow 2 hk
  simpa using this

lemma max_pow_two_usize (k : Nat) :
    max (2 ^ k) USIZE_BYTES = 2 ^ max k 3 := by
  rcases le_total k 3 with h | h
  · have h1 : (2 : Nat) ^ k ≤ 2 ^ 3 := Nat.pow_le_pow_right (by norm_num) h
    rw [Nat.max_eq_right h]
    show max (2 ^ k) 8 = 2 ^ 3
    norm_num at h1 ⊢
    exact h1
  · have h1 : (2 : Nat) ^ 3 ≤ 2 ^ k := Nat.pow_le_pow_right (by norm_num) h
    rw [Nat.max_eq_left h]
    show max (2 ^ k) 8 = 2 ^ k
    norm_num at h1
    exact Nat.max_eq_left h1

lemma dvd_mod_eq_zero {a p : Nat} (h : a ∣ p) : p % a = 0 := by
  obtain ⟨c, rfl⟩ := h
  exact Nat.mul_mod_right a c

/-- C2: when the alignment is at most MIN_ALIGN and at most the size, the
bridge issues exactly the plain-allocate primitive GC_malloc with the
requested size, its result is returned directly, and no other primitive is
invoked: the trace grows by the single malloc call. -/
theorem gc_malloc_fast_path (C : Collector) (layout : Layout) (s : GcState)
    (h1 : layout.align ≤ MIN_ALIGN) (h2 : layout.align ≤ layout.size) :
    (gc_malloc C layout s).1 = C.mallocImpl layout.size ∧
    (gc_malloc C layout s).2.trace = s.trace ++ [PrimCall.malloc layout.size] := by
  constructor <;> simp [gc_malloc, callMalloc, h1, h2]

theorem gc_malloc_fast_path_witness :
    (gc_malloc okCollector (Layout.mk 24 8) initState).1
        = okCollector.mallocImpl 24 ∧
    (gc_malloc okCollector (Layout.mk 24 8) initState).2.trace
        = initState.trace ++ [PrimCall.malloc 24] :=
  gc_malloc_fast_path okCollector (Layout.mk 24 8) initState
    (by decide) (by decide)

/-- C4: the deallocate operations of both capability adapters,
GlobalAlloc::dealloc and Allocator::deallocate, leave the state, and in
particular the trace of collector primitives, unchanged however many times
they are applied: no GC_free call is ever issued by them. -/
theorem dealloc_deallocate_noop (C : Collector) (n p : Nat) (layout : Layout)
    (s : GcState) :
    (fun st => GcAllocator.dealloc C p layout st)^[n] s = s ∧
    (fun st => GcAllocator.deallocate C p layout st)^[n] s = s := by
  constructor <;>
  · induction n with
    | zero => rfl
    | succ m ih =>
      rw [Function.iterate_succ_apply]
      exact ih

/-- C7: on the aligned path the bridge invokes GC_posix_memalign with the
alignment normalized to max(align, usize width); a non-zero status is
absorbed into the null result and a zero status yields exactly the
out-pointer, so no raw status code escapes gc_malloc. -/
theorem gc_malloc_aligned_path_absorbs_status (C : Collector) (layout : Layout)
    (s : GcState)
    (hslow : ¬(layout.align ≤ MIN_ALIGN ∧ layout.align ≤ layout.size)) :
    (gc_malloc C layout s).2.trace
        = s.trace ++ [PrimCall.posixMemalign (max layout.align USIZE_BYTES) layout.size] ∧
    ((C.memalignImpl (max layout.align USIZE_BYTES) layout.size).1 ≠ 0 →
      (gc_malloc C layout s).1 = 0) ∧
    ((C.memalignImpl (max layout.align USIZE_BYTES) layout.size).1 = 0 →
      (gc_malloc C layout s).1
        = (C.memalignImpl (max layout.align USIZE_BYTES) layout.size).2) := by
  refine ⟨?_, ?_, ?_⟩
  · simp [gc_malloc, callMemalign, hslow]
    split <;> rfl
  · intro hst
    simp [gc_malloc, callMemalign, hslow, hst]
  · intro hst
    simp [gc_malloc, callMemalign, hslow, hst]

theorem gc_malloc_aligned_path_absorbs_status_witness :
    (gc_malloc probeCollector (Layout.mk 16 64) initState).2.trace
        = initState.trace ++ [PrimCall.posixMemalign (max 64 USIZE_BYTES) 16] ∧
    ((probeCollector.memalignImpl (max 64 USIZE_BYTES) 16).1 ≠ 0 →
      (gc_malloc probeCollector (Layout.mk 16 64) initState).1 = 0) ∧
    ((probeCollector.memalignImpl (max 64 USIZE_BYTES) 16).1 = 0 →
      (gc_malloc probeCollector (Layout.mk 16 64) initState).1
        = (probeCollector.memalignImpl (max 64 USIZE_BYTES) 16).2) :=
  gc_malloc_aligned_path_absorbs_status probeCollector (Layout.mk 16 64) initState
    (by decide)

/-- C1: for an honest collector, a power-of-two alignment and a positive
size, gc_malloc either fails with null or returns a block whose address is
a multiple of the alignment and whose capacity is at least the size; on the
fast path because the default GC_malloc guarantee MIN_ALIGN covers the
alignment, on the aligned path because GC_posix_memalign is called with an
alignment of which the requested one is a divisor.  The scoped facade
allocate likewise either reports failure or returns that same non-null
aligned block with the requested size as its length. -/
theorem allocate_aligned_and_sized (C : Collector) (hC : C.Honest)
    (layout : Layout) (k : Nat) (hk : layout.align = 2 ^ k)
    (hsize : 0 < layout.size) (s : GcState) :
    ((gc_malloc C layout s).1 = 0 ∨
      ((gc_malloc C layout s).1 % layout.align = 0 ∧
        layout.size ≤ C.capacity (gc_malloc C layout s).1)) ∧
    ((GcAllocator.allocate C layout s).1 = none ∨
      ((GcAllocator.allocate C layout s).1
          = some ((gc_malloc C layout s).1, layout.size) ∧
        (gc_malloc C layout s).1 ≠ 0 ∧
        (gc_malloc C layout s).1 % layout.align = 0 ∧
        layout.size ≤ C.capacity (gc_malloc C layout s).1)) := by
  have hmain : (gc_malloc C layout s).1 = 0 ∨
      ((gc_malloc C layout s).1 % layout.align = 0 ∧
        layout.size ≤ C.capacity (gc_malloc C layout s).1) := by
    by_cases hfast : layout.align ≤ MIN_ALIGN ∧ layout.align ≤ layout.size
    · have hres : (gc_malloc C layout s).1 = C.mallocImpl layout.size := by
        simp [gc_malloc, callMalloc, hfast.1, hfast.2]
      rw [hres]
      by_cases hp : C.mallocImpl layout.size = 0
      · exact Or.inl hp
      · obtain ⟨ha, hcap⟩ := hC.1 layout.size hp
        refine Or.inr ⟨?_, hcap⟩
        have hdvd8 : layout.align ∣ MIN_ALIGN := by
          rw [hk]
          exact pow_two_le_eight_dvd k (hk ▸ hfast.1)
        exact dvd_mod_eq_zero (dvd_trans hdvd8 (Nat.dvd_of_mod_eq_zero ha))
    · have hpow : ∃ j, max layout.align USIZE_BYTES = 2 ^ j :=
        ⟨max k 3, by rw [hk, max_pow_two_usize]⟩
      have h8 : max layout.align USIZE_BYTES % USIZE_BYTES = 0 := by
        apply dvd_mod_eq_zero
        rw [hk, max_pow_two_usize]
        have h3 : (2 : Nat) ^ 3 ∣ 2 ^ max k 3 := pow_dvd_pow 2 (le_max_right k 3)
        norm_num at h3
        exact h3
      by_cases hst : (C.memalignImpl (max layout.align USIZE_BYTES) layout.size).1 = 0
      · obtain ⟨hnn, hmod, hcap⟩ := hC.2 (max layout.align USIZE_BYTES)
          layout.size hpow h8 hst
        have hres : (gc_malloc C layout s).1
            = (C.memalignImpl (max layout.align USIZE_BYTES) layout.size).2 := by
          simp [gc_malloc, callMemalign, hfast, hst]
        rw [hres]
        refine Or.inr ⟨?_, hcap⟩
        have hdvd : layout.align ∣ max layout.align USIZE_BYTES := by
          rw [hk, max_pow_two_usize]
          exact pow_dvd_pow 2 (le_max_left k 3)
        exact dvd_mod_eq_zero (dvd_trans hdvd (Nat.dvd_of_mod_eq_zero hmod))
      · have hres : (gc_malloc C layout s).1 = 0 := by
          simp [gc_malloc, callMemalign, hfast, hst]
        exact Or.inl hres
  refine ⟨hmain, ?_⟩
  have hsz : ¬layout.size = 0 := Nat.pos_iff_ne_zero.mp hsize
  by_cases hp : (gc_malloc C layout s).1 = 0
  · left
    simp [GcAllocator.allocate, hsz, hp]
  · right
    rcases hmain with h0 | hal
    · exact absurd h0 hp
    refine ⟨?_, hp, hal.1, hal.2⟩
    simp [GcAllocator.allocate, hsz, hp]

theorem allocate_aligned_and_sized_witness :
    ((gc_malloc honestCollector (Layout.mk 16 32) initState).1 = 0 ∨
      ((gc_malloc honestCollector (Layout.mk 16 32) initState).1 % 32 = 0 ∧
        16 ≤ honestCollector.capacity
          (gc_malloc honestCollector (Layout.mk 16 32) initState).1)) ∧
    ((GcAllocator.allocate honestCollector (Layout.mk 16 32) initState).1 = none ∨
      ((GcAllocator.allocate honestCollector (Layout.mk 16 32) initState).1
          = some ((gc_malloc honestCollector (Layout.mk 16 32) initState).1, 16) ∧
        (gc_malloc honestCollector (Layout.mk 16 32) initState).1 ≠ 0 ∧
        (gc_malloc honestCollector (Layout.mk 16 32) initState).1 % 32 = 0 ∧
        16 ≤ honestCollector.capacity
          (gc_malloc honestCollector (Layout.mk 16 32) initState).1)) :=
  allocate_aligned_and_sized honestCollector honestCollector_honest
    (Layout.mk 16 32) 5 rfl (by decide) initState

/-- C8: when the old alignment is at most MIN_ALIGN and at most the new
size, gc_realloc issues exactly the plain-reallocate primitive GC_realloc
with the old pointer and the new size: the trace grows by that single call,
so neither allocation primitive nor GC_free is invoked, and memory is not
written by the bridge. -/
theorem gc_realloc_fast_path (C : Collector) (p : Nat) (old_layout : Layout)
    (new_size : Nat) (s : GcState)
    (h1 : old_layout.align ≤ MIN_ALIGN) (h2 : old_layout.align ≤ new_size) :
    (gc_realloc C p old_layout new_size s).1 = C.reallocImpl p new_size ∧
    (gc_realloc C p old_layout new_size s).2.trace
        = s.trace ++ [PrimCall.realloc p new_size] ∧
    (gc_realloc C p old_layout new_size s).2.mem = s.mem := by
  refine ⟨?_, ?_, ?_⟩ <;> simp [gc_realloc, callRealloc, h1, h2]

theorem gc_realloc_fast_path_witness :
    (gc_realloc okCollector 32 (Layout.mk 24 8) 64 initState).1
        = okCollector.reallocImpl 32 64 ∧
    (gc_realloc okCollector 32 (Layout.mk 24 8) 64 initState).2.trace
        = initState.trace ++ [PrimCall.realloc 32 64] ∧
    (gc_realloc okCollector 32 (Layout.mk 24 8) 64 initState).2.mem
        = initState.mem :=
  gc_realloc_fast_path okCollector 32 (Layout.mk 24 8) 64 initState
    (by decide) (by decide)

/-- C3 counterexample: the default global facade has no zero-size special
case.  On the request of size 0 and alignment 1 against the failing
collector double, GlobalAlloc::alloc forwards to gc_malloc, which invokes
the aligned-allocate primitive, so a CollectorService primitive is called
and the returned pointer is null. -/
theorem global_alloc_zero_size_invokes_primitive :
    (GcAllocator.alloc probeCollector (Layout.mk 0 1) initState).2.trace
        = [PrimCall.posixMemalign 8 0] ∧
    (GcAllocator.alloc probeCollector (Layout.mk 0 1) initState).1 = 0 := by
  constructor <;> rfl

/-- C3 (amended): the scoped handle facade allocate short-circuits a
zero-size request for any positive alignment: it returns the dangling
pointer, which is non-null, with length zero, and leaves the state, hence
the trace of collector calls, unchanged.  The default global facade alloc
has no zero-size special case and forwards the request to gc_malloc, which
does invoke a collector primitive. -/
theorem allocate_zero_size_short_circuits (C : Collector) (layout : Layout)
    (hsz : layout.size = 0) (halign : 0 < layout.align) (s : GcState) :
    (GcAllocator.allocate C layout s).1 = some (Layout.dangling layout, 0) ∧
    Layout.dangling layout ≠ 0 ∧
    (GcAllocator.allocate C layout s).2 = s := by
  refine ⟨?_, ?_, ?_⟩
  · simp [GcAllocator.allocate, hsz]
  · simp [Layout.dangling]
    omega
  · simp [GcAllocator.allocate, hsz]

theorem allocate_zero_size_short_circuits_witness :
    (GcAllocator.allocate probeCollector (Layout.mk 0 4) initState).1
        = some (Layout.dangling (Layout.mk 0 4), 0) ∧
    Layout.dangling (Layout.mk 0 4) ≠ 0 ∧
    (GcAllocator.allocate probeCollector (Layout.mk 0 4) initState).2 = initState :=
  allocate_zero_size_short_circuits probeCollector (Layout.mk 0 4) rfl
    (by decide) initState

/-- C9: for a non-zero size the scoped facade reports failure as the typed
error value, none standing for AllocError, exactly when gc_malloc returns
null, and otherwise returns a success carrying the non-null pointer: no
success value ever holds the null pointer. -/
theorem allocate_failure_is_typed (C : Collector) (layout : Layout) (s : GcState)
    (hsz : layout.size ≠ 0) :
    ((gc_malloc C layout s).1 = 0 →
      (GcAllocator.allocate C layout s).1 = none) ∧
    ((gc_malloc C layout s).1 ≠ 0 →
      (GcAllocator.allocate C layout s).1
        = some ((gc_malloc C layout s).1, layout.size)) := by
  constructor <;> intro hp <;> simp [GcAllocator.allocate, hsz, hp]

theorem allocate_failure_is_typed_witness :
    ((gc_malloc probeCollector (Layout.mk 8 8) initState).1 = 0 →
      (GcAllocator.allocate probeCollector (Layout.mk 8 8) initState).1 = none) ∧
    ((gc_malloc probeCollector (Layout.mk 8 8) initState).1 ≠ 0 →
      (GcAllocator.allocate probeCollector (Layout.mk 8 8) initState).1
        = some ((gc_malloc probeCollector (Layout.mk 8 8) initState).1, 8)) :=
  allocate_failure_is_typed probeCollector (Layout.mk 8 8) initState (by decide)

/-- C5: on the copy-relocate path, when the fresh allocation fails with
null, gc_realloc returns null, leaves the memory bytes and the live map
unchanged, and the only primitive issued is the single aligned-allocate
call: in particular the old block is neither written nor freed. -/
theorem gc_realloc_failure_nondestructive (C : Collector) (p : Nat)
    (old_layout : Layout) (new_size : Nat) (s : GcState)
    (hslow : ¬(old_layout.align ≤ MIN_ALIGN ∧ old_layout.align ≤ new_size))
    (hfail : (gc_malloc C (Layout.mk new_size old_layout.align) s).1 = 0) :
    (gc_realloc C p old_layout new_size s).1 = 0 ∧
    (gc_realloc C p old_layout new_size s).2.mem = s.mem ∧
    (gc_realloc C p old_layout new_size s).2.live = s.live ∧
    (gc_realloc C p old_layout new_size s).2.trace
        = s.trace ++ [PrimCall.posixMemalign (max old_layout.align USIZE_BYTES)
            new_size] := by
  by_cases hst : (C.memalignImpl (max old_layout.align USIZE_BYTES) new_size).1 = 0
  · have hres : (gc_malloc C (Layout.mk new_size old_layout.align) s).1
        = (C.memalignImpl (max old_layout.align USIZE_BYTES) new_size).2 := by
      simp [gc_malloc, callMemalign, hslow, hst]
    have hout : (C.memalignImpl (max old_layout.align USIZE_BYTES) new_size).2 = 0 := by
      rw [hres] at hfail
      exact hfail
    refine ⟨?_, ?_, ?_, ?_⟩ <;>
      simp [gc_realloc, gc_malloc, callMemalign, hslow, hst, hout]
  · refine ⟨?_, ?_, ?_, ?_⟩ <;>
      simp [gc_realloc, gc_malloc, callMemalign, hslow, hst]

theorem gc_realloc_failure_nondestructive_witness :
    (gc_realloc probeCollector 100 (Layout.mk 24 16) 40 initState).1 = 0 ∧
    (gc_realloc probeCollector 100 (Layout.mk 24 16) 40 initState).2.mem
        = initState.mem ∧
    (gc_realloc probeCollector 100 (Layout.mk 24 16) 40 initState).2.live
        = initState.live ∧
    (gc_realloc probeCollector 100 (Layout.mk 24 16) 40 initState).2.trace
        = initState.trace ++ [PrimCall.posixMemalign (max 16 USIZE_BYTES) 40] :=
  gc_realloc_failure_nondestructive probeCollector 100 (Layout.mk 24 16) 40
    initState (by decide) (by decide)

/-- C6: on the copy-relocate path with a successful fresh allocation q at
the old alignment, gc_realloc returns q, the trace grows by exactly the
aligned-allocate call followed by the GC_free of the old pointer, each of
the min(old size, new size) leading bytes of the new block holds the
corresponding old byte, every address outside that copied range keeps its
previous contents, and the old block is no longer live. -/
theorem gc_realloc_copy_relocate (C : Collector) (p : Nat)
    (old_layout : Layout) (new_size : Nat) (s : GcState) (q : Nat)
    (hq : (gc_malloc C (Layout.mk new_size old_layout.align) s).1 = q)
    (hslow : ¬(old_layout.align ≤ MIN_ALIGN ∧ old_layout.align ≤ new_size))
    (hqnn : q ≠ 0)
    (i : Nat) (hi : i < min old_layout.size new_size)
    (b : Nat) (hb : b < q ∨ q + min old_layout.size new_size ≤ b) :
    (gc_realloc C p old_layout new_size s).1 = q ∧
    (gc_realloc C p old_layout new_size s).2.trace
        = s.trace ++ [PrimCall.posixMemalign (max old_layout.align USIZE_BYTES)
            new_size, PrimCall.free p] ∧
    (gc_realloc C p old_layout new_size s).2.mem (q + i) = s.mem (p + i) ∧
    (gc_realloc C p old_layout new_size s).2.mem b = s.mem b ∧
    (gc_realloc C p old_layout new_size s).2.live p = false := by
  have hst : (C.memalignImpl (max old_layout.align USIZE_BYTES) new_size).1 = 0 := by
    by_contra hst
    have h0 : (gc_malloc C (Layout.mk new_size old_layout.align) s).1 = 0 := by
      simp [gc_malloc, callMemalign, hslow, hst]
    rw [hq] at h0
    exact hqnn h0
  have hout : (C.memalignImpl (max old_layout.align USIZE_BYTES) new_size).2 = q := by
    have h1 : (gc_malloc C (Layout.mk new_size old_layout.align) s).1
        = (C.memalignImpl (max old_layout.align USIZE_BYTES) new_size).2 := by
      simp [gc_malloc, callMemalign, hslow, hst]
    rw [hq] at h1
    exact h1.symm
  refine ⟨?_, ?_, ?_, ?_, ?_⟩
  · simp [gc_realloc, gc_malloc, callMemalign, hslow, hst, hout, hqnn]
  · simp [gc_realloc, gc_malloc, callMemalign, gc_free, callFree,
      copyNonoverlapping, hslow, hst, hout, hqnn]
  · simp [gc_realloc, gc_malloc, callMemalign, gc_free, callFree,
      copyNonoverlapping, hslow, hst, hout, hqnn]
    intro h
    exfalso
    have h1 : i < old_layout.size := lt_of_lt_of_le hi (min_le_left _ _)
    have h2 : i < new_size := lt_of_lt_of_le hi (min_le_right _ _)
    exact absurd (h h1) (by omega)
  · simp [gc_realloc, gc_malloc, callMemalign, gc_free, callFree,
      copyNonoverlapping, hslow, hst, hout, hqnn]
    intro h1 h2
    exfalso
    rcases hb with hb | hb <;> omega
  · simp [gc_realloc, gc_malloc, callMemalign, gc_free, callFree,
      copyNonoverlapping, markDead, hslow, hst, hout, hqnn]

theorem gc_realloc_copy_relocate_witness :
    (gc_realloc okCollector 200 (Layout.mk 24 16) 40 initState).1 = 64 ∧
    (gc_realloc okCollector 200 (Layout.mk 24 16) 40 initState).2.trace
        = initState.trace ++ [PrimCall.posixMemalign (max 16 USIZE_BYTES) 40,
            PrimCall.free 200] ∧
    (gc_realloc okCollector 200 (Layout.mk 24 16) 40 initState).2.mem (64 + 3)
        = initState.mem (200 + 3) ∧
    (gc_realloc okCollector 200 (Layout.mk 24 16) 40 initState).2.mem 10
        = initState.mem 10 ∧
    (gc_realloc okCollector 200 (Layout.mk 24 16) 40 initState).2.live 200
        = false :=
  gc_realloc_copy_relocate okCollector 200 (Layout.mk 24 16) 40 initState 64
    rfl (by decide) (by decide) 3 (by decide) 10 (Or.inl (by decide))

/-- C10: a reallocate request with new size zero never takes the plain
GC_realloc fast path, because the positive old alignment exceeds the new
size: it requests a zero-byte block from the aligned-allocate primitive at
the normalized old alignment, copies zero bytes so no memory byte changes,
and frees the old pointer via GC_free exactly when that allocation
returned non-null. -/
theorem gc_realloc_zero_new_size (C : Collector) (p : Nat) (old_layout : Layout)
    (s : GcState) (halign : 0 < old_layout.align) :
    (gc_realloc C p old_layout 0 s).1
        = (gc_malloc C (Layout.mk 0 old_layout.align) s).1 ∧
    (gc_realloc C p old_layout 0 s).2.mem = s.mem ∧
    (gc_realloc C p old_layout 0 s).2.trace
        = s.trace ++ PrimCall.posixMemalign (max old_layout.align USIZE_BYTES) 0 ::
            (if (gc_malloc C (Layout.mk 0 old_layout.align) s).1 ≠ 0 then
              [PrimCall.free p]
            else []) := by
  have hne : old_layout.align ≠ 0 := Nat.pos_iff_ne_zero.mp halign
  by_cases hst : (C.memalignImpl (max old_layout.align USIZE_BYTES) 0).1 = 0
  · by_cases hout : (C.memalignImpl (max old_layout.align USIZE_BYTES) 0).2 = 0
    · refine ⟨?_, ?_, ?_⟩ <;>
        simp [gc_realloc, gc_malloc, callMemalign, gc_free, callFree,
          copyNonoverlapping, hne, hst, hout]
    · refine ⟨?_, ?_, ?_⟩ <;>
        simp [gc_realloc, gc_malloc, callMemalign, gc_free, callFree,
          copyNonoverlapping, hne, hst, hout]
      funext a
      exact if_neg (by omega)
  · refine ⟨?_, ?_, ?_⟩ <;>
      simp [gc_realloc, gc_malloc, callMemalign, hne, hst]

theorem gc_realloc_zero_new_size_witness :
    (gc_realloc okCollector 200 (Layout.mk 24 16) 0 initState).1
        = (gc_malloc okCollector (Layout.mk 0 16) initState).1 ∧
    (gc_realloc okCollector 200 (Layout.mk 24 16) 0 initState).2.mem
        = initState.mem ∧
    (gc_realloc okCollector 200 (Layout.mk 24 16) 0 initState).2.trace
        = initState.trace ++ PrimCall.posixMemalign (max 16 USIZE_BYTES) 0 ::
            (if (gc_malloc okCollector (Layout.mk 0 16) initState).1 ≠ 0 then
              [PrimCall.free 200]
            else []) :=
  gc_realloc_zero_new_size okCollector 200 (Layout.mk 24 16) initState (by decide)

end Bmalloc
